import Mathlib

/-!
Shallow embedding of tools/generate_static_fonts.py.

The script walks a compiled-in configuration table FONTS_TO_GENERATE
(family name, source directory, destination directory, files, instances),
creates each destination directory, checks that each source variable font
exists, and for each instance of a present source invokes
generate_static_font, which delegates the real work to the external
fontTools library.  The filesystem and the library are modelled as an
environment Env of pure functions; the run is reified as counters, a list
of events (directory creation, existence checks, generation calls) and
the final summary line and exit code.
-/

namespace GenStaticFonts

/-- A value stored in one of the Python instance dicts: the output file
name (a string under key "name") or a numeric axis value. -/
inductive Val where
  | str (s : String)
  | num (n : Nat)
deriving DecidableEq

/-- One instance dict of the table, in insertion order, e.g.
[("name", "JetBrainsMono-Regular.ttf"), ("wght", 400)]. -/
abbrev InstanceConfig := List (String × Val)

/-- One entry of a family's files list: a source file name and its
instance dicts. -/
structure FileConfig where
  source : String
  instances : List InstanceConfig
deriving DecidableEq

/-- One family entry of FONTS_TO_GENERATE. -/
structure FamilyConfig where
  source_dir : String
  dest_dir : String
  files : List FileConfig
deriving DecidableEq

/-- Shorthand for the common instance dict shape with a single weight
axis, as in the Python literals. -/
def wInst (n : String) (w : Nat) : InstanceConfig :=
  [("name", Val.str n), ("wght", Val.num w)]

/-- The compiled-in configuration table of the script, in dict insertion
order (Python 3.7+ dicts iterate in insertion order). -/
def FONTS_TO_GENERATE : List (String × FamilyConfig) :=
  [ ("jetbrainsmono",
     ⟨"D:/repos/github/fonts/ofl/jetbrainsmono",
      "assets/google_fonts/jetbrainsmono",
      [ ⟨"JetBrainsMono[wght].ttf",
         [wInst "JetBrainsMono-Regular.ttf" 400,
          wInst "JetBrainsMono-Medium.ttf" 500,
          wInst "JetBrainsMono-Bold.ttf" 700]⟩,
        ⟨"JetBrainsMono-Italic[wght].ttf",
         [wInst "JetBrainsMono-Italic.ttf" 400,
          wInst "JetBrainsMono-MediumItalic.ttf" 500,
          wInst "JetBrainsMono-BoldItalic.ttf" 700]⟩ ]⟩),
    ("firacode",
     ⟨"D:/repos/github/fonts/ofl/firacode",
      "assets/google_fonts/firacode",
      [ ⟨"FiraCode[wght].ttf",
         [wInst "FiraCode-Regular.ttf" 400,
          wInst "FiraCode-Medium.ttf" 500,
          wInst "FiraCode-Bold.ttf" 700]⟩ ]⟩),
    ("notosansmono",
     ⟨"D:/repos/github/fonts/ofl/notosansmono",
      "assets/google_fonts/notosansmono",
      [ ⟨"NotoSansMono[wdth,wght].ttf",
         [[("name", Val.str "NotoSansMono-Regular.ttf"),
           ("wght", Val.num 400), ("wdth", Val.num 100)],
          [("name", Val.str "NotoSansMono-Medium.ttf"),
           ("wght", Val.num 500), ("wdth", Val.num 100)],
          [("name", Val.str "NotoSansMono-Bold.ttf"),
           ("wght", Val.num 700), ("wdth", Val.num 100)]]⟩ ]⟩),
    ("overpassmono",
     ⟨"D:/repos/github/fonts/ofl/overpassmono",
      "assets/google_fonts/overpassmono",
      [ ⟨"OverpassMono[wght].ttf",
         [wInst "OverpassMono-Regular.ttf" 400,
          wInst "OverpassMono-Medium.ttf" 500,
          wInst "OverpassMono-Bold.ttf" 700]⟩ ]⟩),
    ("robotomono",
     ⟨"D:/repos/github/fonts/ofl/robotomono",
      "assets/google_fonts/robotomono",
      [ ⟨"RobotoMono[wght].ttf",
         [wInst "RobotoMono-Regular.ttf" 400,
          wInst "RobotoMono-Medium.ttf" 500,
          wInst "RobotoMono-Bold.ttf" 700]⟩,
        ⟨"RobotoMono-Italic[wght].ttf",
         [wInst "RobotoMono-Italic.ttf" 400,
          wInst "RobotoMono-MediumItalic.ttf" 500,
          wInst "RobotoMono-BoldItalic.ttf" 700]⟩ ]⟩),
    ("sourcecodepro",
     ⟨"D:/repos/github/fonts/ofl/sourcecodepro",
      "assets/google_fonts/sourcecodepro",
      [ ⟨"SourceCodePro[wght].ttf",
         [wInst "SourceCodePro-Regular.ttf" 400,
          wInst "SourceCodePro-Medium.ttf" 500,
          wInst "SourceCodePro-Bold.ttf" 700]⟩,
        ⟨"SourceCodePro-Italic[wght].ttf",
         [wInst "SourceCodePro-Italic.ttf" 400,
          wInst "SourceCodePro-MediumItalic.ttf" 500,
          wInst "SourceCodePro-BoldItalic.ttf" 700]⟩ ]⟩) ]

/-- The outside world: whether a path exists on disk, and the combined
outcome of TTFont load, instantiateVariableFont and save for a given
source path, destination path and axes mapping.  On failure the
exception's message is returned. -/
structure Env where
  fileExists : String → Bool
  instancer : String → String → InstanceConfig → Except String Unit

/-- os.path.basename for the forward-slash joined paths the script
builds. -/
def basename (p : String) : String :=
  (p.splitOn "/").getLastD ""

/-- generate_static_font(source_path, dest_path, axes): returns the
boolean result and the lines it prints. -/
def generate_static_font (env : Env) (source_path dest_path : String)
    (axes : InstanceConfig) : Bool × List String :=
  let b := basename dest_path
  match env.instancer source_path dest_path axes with
  | Except.ok _ =>
      (true, ["  Generating " ++ b ++ "...", "    [OK] Created " ++ b])
  | Except.error e =>
      (false, ["  Generating " ++ b ++ "...", "    [ERROR] " ++ e])

/-- An observable action of the run. -/
inductive Event where
  | mkdir (dir : String) (parents exist_ok : Bool)
  | checkExists (path : String) (found : Bool)
  | genCall (source dest : String) (axes : InstanceConfig) (ok : Bool)
deriving DecidableEq

/-- instance["name"], which in the table is always a string. -/
def getName (inst : InstanceConfig) : String :=
  match inst.lookup "name" with
  | some (Val.str s) => s
  | _ => ""

/-- The axes dict built in main: all key/value pairs of the instance
dict except the "name" key, in order. -/
def buildAxes (inst : InstanceConfig) : InstanceConfig :=
  inst.filter (fun kv => kv.1 != "name")

/-- The inner instance loop of main for one present source file:
returns (instances counted, instances generated, events). -/
def processInstances (env : Env) (sourceFile destDir : String) :
    List InstanceConfig → Nat × Nat × List Event
  | [] => (0, 0, [])
  | inst :: rest =>
      let destFile := destDir ++ "/" ++ getName inst
      let axes := buildAxes inst
      let ok := (generate_static_font env sourceFile destFile axes).1
      let r := processInstances env sourceFile destDir rest
      (r.1 + 1, r.2.1 + (if ok then 1 else 0),
       Event.genCall sourceFile destFile axes ok :: r.2.2)

/-- The file loop of main for one family: existence check, then either
the instance loop or a skip. -/
def processFiles (env : Env) (sourceDir destDir : String) :
    List FileConfig → Nat × Nat × List Event
  | [] => (0, 0, [])
  | fc :: rest =>
      let sourceFile := sourceDir ++ "/" ++ fc.source
      let r := processFiles env sourceDir destDir rest
      if env.fileExists sourceFile then
        let ri := processInstances env sourceFile destDir fc.instances
        (ri.1 + r.1, ri.2.1 + r.2.1,
         Event.checkExists sourceFile true :: (ri.2.2 ++ r.2.2))
      else
        (r.1, r.2.1, Event.checkExists sourceFile false :: r.2.2)

/-- The family loop of main: mkdir(parents=True, exist_ok=True) on the
destination directory, then the family's files. -/
def processFamilies (env : Env) :
    List (String × FamilyConfig) → Nat × Nat × List Event
  | [] => (0, 0, [])
  | (_, cfg) :: rest =>
      let rf := processFiles env cfg.source_dir cfg.dest_dir cfg.files
      let r := processFamilies env rest
      (rf.1 + r.1, rf.2.1 + r.2.1,
       Event.mkdir cfg.dest_dir true true :: (rf.2.2 ++ r.2.2))

/-- The outcome of one run of main. -/
structure RunResult where
  total : Nat
  generated : Nat
  events : List Event
  summary : String
  exitCode : Nat
deriving DecidableEq

/-- main() over an arbitrary table: the counters, the event trace, the
final summary line and the process exit code (sys.exit(1) when
generated < total, otherwise a normal return, i.e. status 0). -/
def mainRun (env : Env) (table : List (String × FamilyConfig)) : RunResult :=
  let r := processFamilies env table
  { total := r.1
    generated := r.2.1
    events := r.2.2
    summary := "Generation complete: " ++ toString r.2.1 ++ "/" ++
               toString r.1 ++ " fonts created"
    exitCode := if r.2.1 < r.1 then 1 else 0 }

/-- main() of the script, over the compiled-in table. -/
def pythonMain (env : Env) : RunResult :=
  mainRun env FONTS_TO_GENERATE

/-- The whole process, including the import guard at the top of the
script. -/
structure ProgramResult where
  exitCode : Nat
  startupLog : List String
  mainResult : Option RunResult
deriving DecidableEq

/-- The process: if fontTools cannot be imported, print the remediation
message and exit 1 before doing anything else; otherwise run main. -/
def program (fontToolsAvailable : Bool) (env : Env) : ProgramResult :=
  if fontToolsAvailable then
    { exitCode := (pythonMain env).exitCode
      startupLog := []
      mainResult := some (pythonMain env) }
  else
    { exitCode := 1
      startupLog := ["ERROR: fonttools not installed. Run: pip install fonttools"]
      mainResult := none }

/-- The destination paths actually written during a run (successful
generation calls, in order). -/
def writes : List Event → List String
  | [] => []
  | Event.genCall _ d _ true :: evs => d :: writes evs
  | _ :: evs => writes evs

/-- Number of generation calls that failed in a trace. -/
def failedCount : List Event → Nat
  | [] => 0
  | Event.genCall _ _ _ false :: evs => failedCount evs + 1
  | _ :: evs => failedCount evs

/-- Number of instances the driver actually attempts: instances of
files whose source exists. -/
def attemptedCount (env : Env) (table : List (String × FamilyConfig)) : Nat :=
  (table.map (fun p =>
    ((p.2.files.filter
        (fun fc => env.fileExists (p.2.source_dir ++ "/" ++ fc.source))).map
      (fun fc => fc.instances.length)).sum)).sum

/-- Number of instances configured in the table, present or not. -/
def configuredInstanceCount (table : List (String × FamilyConfig)) : Nat :=
  (table.map (fun p =>
    (p.2.files.map (fun fc => fc.instances.length)).sum)).sum

/-- All instance dicts of a table. -/
def allInstances (table : List (String × FamilyConfig)) : List InstanceConfig :=
  table.flatMap (fun p => p.2.files.flatMap (fun fc => fc.instances))

/-! ### Concrete environments and tables used in the theorems -/

/-- Every file present, every library call succeeds. -/
def envAll : Env := ⟨fun _ => true, fun _ _ _ => Except.ok ()⟩

/-- A pointwise-equal variant of envAll with a different syntactic shape. -/
def envAllB : Env := ⟨fun p => p == p, fun _ _ _ => Except.ok ()⟩

/-- No file present. -/
def envNone : Env := ⟨fun _ => false, fun _ _ _ => Except.ok ()⟩

/-- Every file present, every library call raises. -/
def envErr : Env :=
  ⟨fun _ => true, fun _ _ _ => Except.error "Unknown axis tag wXYZ"⟩

/-- The joined source path of the first JetBrains Mono file of the
table. -/
def jbSrc : String :=
  "D:/repos/github/fonts/ofl/jetbrainsmono/JetBrainsMono[wght].ttf"

/-- Exactly that one source file is missing; everything else is present
and every library call succeeds. -/
def envSkip : Env := ⟨fun p => p != jbSrc, fun _ _ _ => Except.ok ()⟩

/-- The file config of the spec scenarios: one variable source file
with three instances at weights 400, 500, 700. -/
def demoFile : FileConfig :=
  ⟨"Demo[wght].ttf",
   [wInst "Demo-Regular.ttf" 400,
    wInst "Demo-Medium.ttf" 500,
    wInst "Demo-Bold.ttf" 700]⟩

/-- The single-family configuration of the spec scenarios. -/
def demoFamily : FamilyConfig :=
  ⟨"fonts/demo", "assets/demo", [demoFile]⟩

/-- A table holding only the scenario family. -/
def demoTable : List (String × FamilyConfig) := [("demo", demoFamily)]

/-! ### Accounting lemmas: total = generated + failed at every level -/

lemma failedCount_append (l1 l2 : List Event) :
    failedCount (l1 ++ l2) = failedCount l1 + failedCount l2 := by
  induction l1 with
  | nil => simp [failedCount]
  | cons e l ih =>
    cases e with
    | mkdir d p x => simpa [failedCount] using ih
    | checkExists p f => simpa [failedCount] using ih
    | genCall s d a ok =>
      cases ok with
      | false => simp [failedCount, ih]; omega
      | true => simpa [failedCount] using ih

lemma processInstances_counts (env : Env) (sf dd : String)
    (insts : List InstanceConfig) :
    (processInstances env sf dd insts).1 = insts.length ∧
    (processInstances env sf dd insts).1 =
      (processInstances env sf dd insts).2.1 +
        failedCount (processInstances env sf dd insts).2.2 := by
  induction insts with
  | nil => simp [processInstances, failedCount]
  | cons inst rest ih =>
    rcases ih with ⟨ih1, ih2⟩
    simp only [processInstances]
    cases hok : (generate_static_font env sf (dd ++ "/" ++ getName inst)
        (buildAxes inst)).1 with
    | false =>
      constructor
      · simp [ih1]
      · simp [failedCount]; omega
    | true =>
      constructor
      · simp [ih1]
      · simp [failedCount]; omega

lemma processFiles_counts (env : Env) (sd dd : String)
    (fcs : List FileConfig) :
    (processFiles env sd dd fcs).1 =
      (processFiles env sd dd fcs).2.1 +
        failedCount (processFiles env sd dd fcs).2.2 := by
  induction fcs with
  | nil => simp [processFiles, failedCount]
  | cons fc rest ih =>
    simp only [processFiles]
    cases hex : env.fileExists (sd ++ "/" ++ fc.source) with
    | false => simpa [failedCount] using ih
    | true =>
      have hi := (processInstances_counts env (sd ++ "/" ++ fc.source) dd
        fc.instances).2
      simp [failedCount, failedCount_append]
      omega

lemma processFamilies_counts (env : Env)
    (table : List (String × FamilyConfig)) :
    (processFamilies env table).1 =
      (processFamilies env table).2.1 +
        failedCount (processFamilies env table).2.2 := by
  induction table with
  | nil => simp [processFamilies, failedCount]
  | cons fam rest ih =>
    have hf := processFiles_counts env fam.2.source_dir fam.2.dest_dir
      fam.2.files
    simp only [processFamilies, failedCount, failedCount_append]
    omega

lemma processFiles_total (env : Env) (sd dd : String)
    (fcs : List FileConfig) :
    (processFiles env sd dd fcs).1 =
      ((fcs.filter (fun fc => env.fileExists (sd ++ "/" ++ fc.source))).map
        (fun fc => fc.instances.length)).sum := by
  induction fcs with
  | nil => simp [processFiles]
  | cons fc rest ih =>
    simp only [processFiles, List.filter_cons]
    cases hex : env.fileExists (sd ++ "/" ++ fc.source) with
    | false => simpa using ih
    | true =>
      have hi := (processInstances_counts env (sd ++ "/" ++ fc.source) dd
        fc.instances).1
      simp [hi, ih]

lemma processFamilies_total (env : Env)
    (table : List (String × FamilyConfig)) :
    (processFamilies env table).1 = attemptedCount env table := by
  induction table with
  | nil => simp [processFamilies, attemptedCount]
  | cons fam rest ih =>
    have hf := processFiles_total env fam.2.source_dir fam.2.dest_dir
      fam.2.files
    simp [processFamilies, attemptedCount, hf] at ih ⊢
    simp [ih.symm, attemptedCount]

/-! ### Provenance of generation calls -/

lemma processInstances_genCall (env : Env) (sf dd : String)
    (insts : List InstanceConfig) (s d : String) (a : InstanceConfig)
    (ok : Bool)
    (h : Event.genCall s d a ok ∈ (processInstances env sf dd insts).2.2) :
    s = sf ∧ ∃ inst ∈ insts, a = buildAxes inst ∧
      d = dd ++ "/" ++ getName inst := by
  induction insts with
  | nil => simp [processInstances] at h
  | cons inst rest ih =>
    simp only [processInstances, List.mem_cons] at h
    rcases h with h | h
    · rw [Event.genCall.injEq] at h
      exact ⟨h.1, inst, by simp, h.2.2.1, h.2.1⟩
    · rcases ih h with ⟨hs, inst2, hmem, ha, hd⟩
      exact ⟨hs, inst2, by simp [hmem], ha, hd⟩

lemma processFiles_genCall (env : Env) (sd dd : String)
    (fcs : List FileConfig) (s d : String) (a : InstanceConfig) (ok : Bool)
    (h : Event.genCall s d a ok ∈ (processFiles env sd dd fcs).2.2) :
    env.fileExists s = true ∧
    Event.checkExists s true ∈ (processFiles env sd dd fcs).2.2 ∧
    ∃ fc ∈ fcs, s = sd ++ "/" ++ fc.source ∧
      ∃ inst ∈ fc.instances, a = buildAxes inst ∧
        d = dd ++ "/" ++ getName inst := by
  induction fcs with
  | nil => simp [processFiles] at h
  | cons fc rest ih =>
    cases hex : env.fileExists (sd ++ "/" ++ fc.source) with
    | false =>
      simp only [processFiles, hex, Bool.false_eq_true, if_false,
        List.mem_cons, reduceCtorEq, false_or] at h
      rcases ih h with ⟨h1, h2, fc2, hmem, hrest⟩
      refine ⟨h1, ?_, fc2, by simp [hmem], hrest⟩
      simp only [processFiles, hex, Bool.false_eq_true, if_false,
        List.mem_cons]
      exact Or.inr h2
    | true =>
      simp only [processFiles, hex, if_true, List.mem_cons,
        List.mem_append, reduceCtorEq, false_or] at h
      rcases h with h | h
      · rcases processInstances_genCall env (sd ++ "/" ++ fc.source) dd
          fc.instances s d a ok h with ⟨hs, inst, hmem, ha, hd⟩
        refine ⟨by rw [hs]; exact hex, ?_, fc, by simp, hs, inst, hmem,
          ha, hd⟩
        simp only [processFiles, hex, if_true, List.mem_cons]
        exact Or.inl (by rw [hs])
      · rcases ih h with ⟨h1, h2, fc2, hmem, hrest⟩
        refine ⟨h1, ?_, fc2, by simp [hmem], hrest⟩
        simp only [processFiles, hex, if_true, List.mem_cons,
          List.mem_append]
        exact Or.inr (Or.inr h2)

lemma processFamilies_genCall (env : Env)
    (table : List (String × FamilyConfig)) (s d : String)
    (a : InstanceConfig) (ok : Bool)
    (h : Event.genCall s d a ok ∈ (processFamilies env table).2.2) :
    env.fileExists s = true ∧
    Event.checkExists s true ∈ (processFamilies env table).2.2 ∧
    ∃ fam ∈ table, ∃ fc ∈ fam.2.files,
      s = fam.2.source_dir ++ "/" ++ fc.source ∧
      ∃ inst ∈ fc.instances, a = buildAxes inst ∧
        d = fam.2.dest_dir ++ "/" ++ getName inst := by
  induction table with
  | nil => simp [processFamilies] at h
  | cons fam rest ih =>
    simp only [processFamilies, List.mem_cons, List.mem_append,
      reduceCtorEq, false_or] at h
    rcases h with h | h
    · rcases processFiles_genCall env fam.2.source_dir fam.2.dest_dir
        fam.2.files s d a ok h with ⟨h1, h2, fc, hmem, hrest⟩
      refine ⟨h1, ?_, fam, by simp, fc, hmem, hrest⟩
      simp only [processFamilies, List.mem_cons, List.mem_append]
      exact Or.inr (Or.inl h2)
    · rcases ih h with ⟨h1, h2, fam2, hmem, hrest⟩
      refine ⟨h1, ?_, fam2, by simp [hmem], hrest⟩
      simp only [processFamilies, List.mem_cons, List.mem_append]
      exact Or.inr (Or.inr h2)

/-! ### Shape of the event trace -/

lemma processFamilies_events (env : Env)
    (table : List (String × FamilyConfig)) :
    (processFamilies env table).2.2 = table.flatMap (fun p =>
      Event.mkdir p.2.dest_dir true true ::
        (processFiles env p.2.source_dir p.2.dest_dir p.2.files).2.2) := by
  induction table with
  | nil => simp [processFamilies]
  | cons fam rest ih => simp [processFamilies, ih]

/-! ### Runs in which no source file exists -/

lemma processFiles_skip_all (env : Env) (hnone : ∀ p, env.fileExists p = false)
    (sd dd : String) (fcs : List FileConfig) :
    processFiles env sd dd fcs =
      (0, 0, fcs.map (fun fc =>
        Event.checkExists (sd ++ "/" ++ fc.source) false)) := by
  induction fcs with
  | nil => simp [processFiles]
  | cons fc rest ih => simp [processFiles, hnone, ih]

lemma processFamilies_skip_all (env : Env)
    (hnone : ∀ p, env.fileExists p = false)
    (table : List (String × FamilyConfig)) :
    (processFamilies env table).1 = 0 ∧
    (processFamilies env table).2.1 = 0 := by
  induction table with
  | nil => simp [processFamilies]
  | cons fam rest ih =>
    simp [processFamilies, processFiles_skip_all env hnone, ih]

/-! ### Axes never contain the name key -/

lemma name_not_in_buildAxes (inst : InstanceConfig) :
    "name" ∉ (buildAxes inst).map Prod.fst := by
  intro h
  rcases List.mem_map.mp h with ⟨kv, hkv, hfst⟩
  rcases List.mem_filter.mp hkv with ⟨hmem, hne⟩
  rw [bne_iff_ne] at hne
  exact hne hfst

lemma allInstances_axes_nonempty :
    ∀ inst ∈ allInstances FONTS_TO_GENERATE, buildAxes inst ≠ [] := by
  decide

lemma mem_allInstances {table : List (String × FamilyConfig)}
    {fam : String × FamilyConfig} {fc : FileConfig} {inst : InstanceConfig}
    (hfam : fam ∈ table) (hfc : fc ∈ fam.2.files)
    (hinst : inst ∈ fc.instances) : inst ∈ allInstances table := by
  simp only [allInstances, List.mem_flatMap]
  exact ⟨fam, hfam, fc, hfc, hinst⟩

/-! ### Claim theorems -/

/-- C1 (counterexample): in a run where exactly one source file of the
table is missing and every library call succeeds, an instance was
skipped (which the claim counts as a failure) and the number of
generated instances (24) differs from the number configured in the
table (27), yet the exit status is 0 — refuting both directions of the
claim as stated. -/
theorem C1_counterexample :
    Event.checkExists jbSrc false ∈ (pythonMain envSkip).events ∧
    (pythonMain envSkip).exitCode = 0 ∧
    (pythonMain envSkip).generated = 24 ∧
    configuredInstanceCount FONTS_TO_GENERATE = 27 ∧
    (pythonMain envSkip).generated ≠
      configuredInstanceCount FONTS_TO_GENERATE :=
  ⟨by decide, rfl, rfl, rfl, by decide⟩

/-- C1 (amended): the process exits with status 0 iff the number of
generated instances equals the number of instances actually counted,
which is the number of instances of files whose source exists — not
the number configured in the table; the exit status is non-zero iff at
least one attempted generation call failed.  Skipped files contribute
to neither counter. -/
theorem C1_exit_status (env : Env) :
    ((pythonMain env).exitCode = 0 ↔
      (pythonMain env).generated = (pythonMain env).total) ∧
    ((pythonMain env).exitCode ≠ 0 ↔
      0 < failedCount (pythonMain env).events) ∧
    (pythonMain env).total = attemptedCount env FONTS_TO_GENERATE := by
  have hc := processFamilies_counts env FONTS_TO_GENERATE
  have ht := processFamilies_total env FONTS_TO_GENERATE
  simp only [pythonMain, mainRun]
  refine ⟨?_, ?_, ht⟩ <;> split <;> omega

/-- C1 (witness for the amended theorem): a run where every source path
except one exists; it exits 0 and its counters agree. -/
theorem C1_exit_status_witness :
    ((pythonMain envSkip).exitCode = 0 ↔
      (pythonMain envSkip).generated = (pythonMain envSkip).total) ∧
    ((pythonMain envSkip).exitCode ≠ 0 ↔
      0 < failedCount (pythonMain envSkip).events) ∧
    (pythonMain envSkip).total = attemptedCount envSkip FONTS_TO_GENERATE :=
  C1_exit_status envSkip

/-- C2 (counterexample): with a single file config of three instances
whose source file is missing, the summary line reads "0/0 fonts
created" (not "0/3") and the exit code is 0 (not 1): skipped instances
are never added to the total, so they are not counted as failures. -/
theorem C2_counterexample :
    (mainRun envNone demoTable).summary =
      "Generation complete: 0/0 fonts created" ∧
    (mainRun envNone demoTable).summary ≠
      "Generation complete: 0/3 fonts created" ∧
    (mainRun envNone demoTable).exitCode = 0 ∧
    (mainRun envNone demoTable).exitCode ≠ 1 ∧
    (mainRun envNone demoTable).total = 0 :=
  ⟨rfl, by decide, rfl, by decide, rfl⟩

/-- C2 (amended): for every run and every file config whose joined
source path is absent, the batch driver attempts none of that file's
instances — no generation-call event for that source appears anywhere
in the trace — and skipping the file changes neither counter, adding
only a negative existence-check event; in particular, with a single
file config of three instances and a missing source, both counters
stay 0, the summary reads "0/0 fonts created" and the exit code is
0. -/
theorem C2_missing_source_skips_file (env : Env)
    (table : List (String × FamilyConfig)) (sd dd : String)
    (fc : FileConfig) (rest : List FileConfig)
    (h : env.fileExists (sd ++ "/" ++ fc.source) = false) :
    (∀ d a ok, Event.genCall (sd ++ "/" ++ fc.source) d a ok ∉
      (mainRun env table).events) ∧
    (processFiles env sd dd (fc :: rest)).1 =
      (processFiles env sd dd rest).1 ∧
    (processFiles env sd dd (fc :: rest)).2.1 =
      (processFiles env sd dd rest).2.1 ∧
    (processFiles env sd dd (fc :: rest)).2.2 =
      Event.checkExists (sd ++ "/" ++ fc.source) false ::
        (processFiles env sd dd rest).2.2 ∧
    (mainRun envNone demoTable).total = 0 ∧
    (mainRun envNone demoTable).generated = 0 ∧
    (mainRun envNone demoTable).summary =
      "Generation complete: 0/0 fonts created" ∧
    (mainRun envNone demoTable).exitCode = 0 := by
  refine ⟨?_, ?_, ?_, ?_, rfl, rfl, rfl, rfl⟩
  · intro d a ok hmem
    simp only [mainRun] at hmem
    rcases processFamilies_genCall env table (sd ++ "/" ++ fc.source)
      d a ok hmem with ⟨h1, _⟩
    rw [h] at h1
    exact Bool.false_ne_true h1
  · simp [processFiles, h]
  · simp [processFiles, h]
  · simp [processFiles, h]

/-- C2 (witness for the amended theorem): the scenario file config with
its source absent — no generation call for it occurs, and the skip
leaves the counters of the remaining (empty) file list unchanged. -/
theorem C2_missing_source_skips_file_witness :
    (∀ d a ok, Event.genCall ("fonts/demo" ++ "/" ++ demoFile.source)
      d a ok ∉ (mainRun envNone demoTable).events) ∧
    (processFiles envNone "fonts/demo" "assets/demo" (demoFile :: [])).1 =
      (processFiles envNone "fonts/demo" "assets/demo" []).1 ∧
    (processFiles envNone "fonts/demo" "assets/demo"
      (demoFile :: [])).2.1 =
      (processFiles envNone "fonts/demo" "assets/demo" []).2.1 ∧
    (processFiles envNone "fonts/demo" "assets/demo"
      (demoFile :: [])).2.2 =
      Event.checkExists ("fonts/demo" ++ "/" ++ demoFile.source) false ::
        (processFiles envNone "fonts/demo" "assets/demo" []).2.2 ∧
    (mainRun envNone demoTable).total = 0 ∧
    (mainRun envNone demoTable).generated = 0 ∧
    (mainRun envNone demoTable).summary =
      "Generation complete: 0/0 fonts created" ∧
    (mainRun envNone demoTable).exitCode = 0 :=
  C2_missing_source_skips_file envNone demoTable "fonts/demo"
    "assets/demo" demoFile [] rfl

/-- C3: if every configured source font file is absent, both counters
remain 0, the summary line prints "0/0 fonts created", and the process
exits with status 0, because skipped instances are never added to the
total count. -/
theorem C3_all_sources_missing (env : Env)
    (h : ∀ p, env.fileExists p = false) :
    (pythonMain env).total = 0 ∧
    (pythonMain env).generated = 0 ∧
    (pythonMain env).summary = "Generation complete: 0/0 fonts created" ∧
    (pythonMain env).exitCode = 0 := by
  have hs := processFamilies_skip_all env h FONTS_TO_GENERATE
  simp only [pythonMain, mainRun]
  refine ⟨hs.1, hs.2, ?_, ?_⟩
  · rw [hs.1, hs.2]
    rfl
  · rw [hs.1, hs.2]
    rfl

/-- C3 (witness): the all-missing environment. -/
theorem C3_all_sources_missing_witness :
    (pythonMain envNone).total = 0 ∧
    (pythonMain envNone).generated = 0 ∧
    (pythonMain envNone).summary = "Generation complete: 0/0 fonts created" ∧
    (pythonMain envNone).exitCode = 0 :=
  C3_all_sources_missing envNone (fun _ => rfl)

/-- C4: when the instancing operation for an instance raises with
message e, generate_static_font returns false and its output contains
an error line carrying e; in the driver loop the instance is counted
in the total but not in the generated counter, the failed call is
recorded, and the remaining instances are processed exactly as they
would be on their own. -/
theorem C4_instancing_error_recovered (env : Env)
    (sourceFile destDir : String) (inst : InstanceConfig)
    (rest : List InstanceConfig) (e : String)
    (h : env.instancer sourceFile (destDir ++ "/" ++ getName inst)
      (buildAxes inst) = Except.error e) :
    (generate_static_font env sourceFile (destDir ++ "/" ++ getName inst)
      (buildAxes inst)).1 = false ∧
    ("    [ERROR] " ++ e) ∈
      (generate_static_font env sourceFile
        (destDir ++ "/" ++ getName inst) (buildAxes inst)).2 ∧
    (processInstances env sourceFile destDir (inst :: rest)).1 =
      (processInstances env sourceFile destDir rest).1 + 1 ∧
    (processInstances env sourceFile destDir (inst :: rest)).2.1 =
      (processInstances env sourceFile destDir rest).2.1 ∧
    (processInstances env sourceFile destDir (inst :: rest)).2.2 =
      Event.genCall sourceFile (destDir ++ "/" ++ getName inst)
        (buildAxes inst) false ::
        (processInstances env sourceFile destDir rest).2.2 := by
  refine ⟨?_, ?_, ?_, ?_, ?_⟩ <;>
    simp [processInstances, generate_static_font, h]

/-- C4 (witness): a concrete environment whose library call raises
"Unknown axis tag wXYZ" on the scenario instance. -/
theorem C4_instancing_error_recovered_witness :
    (generate_static_font envErr "fonts/demo/Demo[wght].ttf"
      ("assets/demo" ++ "/" ++ getName (wInst "Demo-Regular.ttf" 400))
      (buildAxes (wInst "Demo-Regular.ttf" 400))).1 = false ∧
    ("    [ERROR] " ++ "Unknown axis tag wXYZ") ∈
      (generate_static_font envErr "fonts/demo/Demo[wght].ttf"
        ("assets/demo" ++ "/" ++ getName (wInst "Demo-Regular.ttf" 400))
        (buildAxes (wInst "Demo-Regular.ttf" 400))).2 ∧
    (processInstances envErr "fonts/demo/Demo[wght].ttf" "assets/demo"
      (wInst "Demo-Regular.ttf" 400 :: [wInst "Demo-Medium.ttf" 500])).1 =
      (processInstances envErr "fonts/demo/Demo[wght].ttf" "assets/demo"
        [wInst "Demo-Medium.ttf" 500]).1 + 1 ∧
    (processInstances envErr "fonts/demo/Demo[wght].ttf" "assets/demo"
      (wInst "Demo-Regular.ttf" 400 :: [wInst "Demo-Medium.ttf" 500])).2.1 =
      (processInstances envErr "fonts/demo/Demo[wght].ttf" "assets/demo"
        [wInst "Demo-Medium.ttf" 500]).2.1 ∧
    (processInstances envErr "fonts/demo/Demo[wght].ttf" "assets/demo"
      (wInst "Demo-Regular.ttf" 400 :: [wInst "Demo-Medium.ttf" 500])).2.2 =
      Event.genCall "fonts/demo/Demo[wght].ttf"
        ("assets/demo" ++ "/" ++ getName (wInst "Demo-Regular.ttf" 400))
        (buildAxes (wInst "Demo-Regular.ttf" 400)) false ::
        (processInstances envErr "fonts/demo/Demo[wght].ttf" "assets/demo"
          [wInst "Demo-Medium.ttf" 500]).2.2 :=
  C4_instancing_error_recovered envErr "fonts/demo/Demo[wght].ttf"
    "assets/demo" (wInst "Demo-Regular.ttf" 400)
    [wInst "Demo-Medium.ttf" 500] "Unknown axis tag wXYZ" rfl

/-- C5: when fontTools cannot be imported at startup, the process
prints the remediation message naming the pip command, exits with
status 1, and main never runs (no configuration entry is processed,
no file is touched). -/
theorem C5_missing_dependency_fatal (env : Env) :
    (program false env).exitCode = 1 ∧
    (program false env).startupLog =
      ["ERROR: fonttools not installed. Run: pip install fonttools"] ∧
    (program false env).mainResult = none :=
  ⟨rfl, rfl, rfl⟩

/-- C6: every generation call in the trace of a run names a source path
that the driver's existence check found present; the check event with
a positive result is itself in the trace. -/
theorem C6_source_checked_before_call (env : Env)
    (table : List (String × FamilyConfig)) (s d : String)
    (a : InstanceConfig) (ok : Bool)
    (h : Event.genCall s d a ok ∈ (mainRun env table).events) :
    env.fileExists s = true ∧
    Event.checkExists s true ∈ (mainRun env table).events := by
  simp only [mainRun] at h ⊢
  rcases processFamilies_genCall env table s d a ok h with ⟨h1, h2, _⟩
  exact ⟨h1, h2⟩

/-- C6 (witness): the first generation call of the scenario run. -/
theorem C6_source_checked_before_call_witness :
    Event.genCall "fonts/demo/Demo[wght].ttf"
      "assets/demo/Demo-Regular.ttf" [("wght", Val.num 400)] true ∈
      (mainRun envAll demoTable).events ∧
    (envAll.fileExists "fonts/demo/Demo[wght].ttf" = true ∧
      Event.checkExists "fonts/demo/Demo[wght].ttf" true ∈
        (mainRun envAll demoTable).events) := by
  have hmem : Event.genCall "fonts/demo/Demo[wght].ttf"
      "assets/demo/Demo-Regular.ttf" [("wght", Val.num 400)] true ∈
      (mainRun envAll demoTable).events := by decide
  exact ⟨hmem, C6_source_checked_before_call envAll demoTable
    "fonts/demo/Demo[wght].ttf" "assets/demo/Demo-Regular.ttf"
    [("wght", Val.num 400)] true hmem⟩

/-- C7: the trace of a run is exactly, family by family in table
order, a directory creation for the family's destination directory
with parents=True and exist_ok=True (so intermediate directories are
created and an existing directory is not an error), followed by the
processing of that family's file configs. -/
theorem C7_mkdir_before_family_files (env : Env)
    (table : List (String × FamilyConfig)) :
    (mainRun env table).events = table.flatMap (fun p =>
      Event.mkdir p.2.dest_dir true true ::
        (processFiles env p.2.source_dir p.2.dest_dir p.2.files).2.2) := by
  simp only [mainRun]
  exact processFamilies_events env table

/-- C8: in the scenario of one family with one source file and three
instances at weights 400, 500, 700, with the source present and every
library call succeeding, all three instances succeed, the three
output files are written at the configured destination paths in
order, the summary reads "3/3 fonts created" and the exit code is
0. -/
theorem C8_three_instances_all_succeed :
    (mainRun envAll demoTable).total = 3 ∧
    (mainRun envAll demoTable).generated = 3 ∧
    writes (mainRun envAll demoTable).events =
      ["assets/demo/Demo-Regular.ttf", "assets/demo/Demo-Medium.ttf",
       "assets/demo/Demo-Bold.ttf"] ∧
    (mainRun envAll demoTable).summary =
      "Generation complete: 3/3 fonts created" ∧
    (mainRun envAll demoTable).exitCode = 0 :=
  ⟨rfl, rfl, rfl, rfl, rfl⟩

/-- C9: the run is a pure function of the filesystem and library
behavior: two runs over environments that agree pointwise produce
identical results (same counters, same event trace — hence the same
output paths, axis values and processing order — same summary and
exit code).  With a deterministic library, running twice on unchanged
inputs rewrites identical outputs. -/
theorem C9_runs_deterministic (env1 env2 : Env)
    (h1 : ∀ p, env1.fileExists p = env2.fileExists p)
    (h2 : ∀ s d a, env1.instancer s d a = env2.instancer s d a) :
    pythonMain env1 = pythonMain env2 := by
  obtain ⟨f1, i1⟩ := env1
  obtain ⟨f2, i2⟩ := env2
  have hf : f1 = f2 := funext h1
  have hi : i1 = i2 :=
    funext fun s => funext fun d => funext fun a => h2 s d a
  subst hf
  subst hi
  rfl

/-- C9 (witness): two syntactically different but pointwise-equal
all-success environments give identical runs. -/
theorem C9_runs_deterministic_witness :
    pythonMain envAll = pythonMain envAllB :=
  C9_runs_deterministic envAll envAllB (fun p => by simp [envAll, envAllB])
    (fun _ _ _ => rfl)

/-- C10: the axes mapping of every generation call of a run over the
compiled-in table is some table instance with exactly its "name" key
removed; it is non-empty and never contains the key "name". -/
theorem C10_axes_drop_name (env : Env) (s d : String)
    (a : InstanceConfig) (ok : Bool)
    (h : Event.genCall s d a ok ∈ (pythonMain env).events) :
    (∃ inst ∈ allInstances FONTS_TO_GENERATE, a = buildAxes inst) ∧
    a ≠ [] ∧ "name" ∉ a.map Prod.fst := by
  simp only [pythonMain, mainRun] at h
  rcases processFamilies_genCall env FONTS_TO_GENERATE s d a ok h with
    ⟨_, _, fam, hfam, fc, hfc, _, inst, hinst, ha, _⟩
  have hall := mem_allInstances hfam hfc hinst
  refine ⟨⟨inst, hall, ha⟩, ?_, ?_⟩
  · rw [ha]
    exact allInstances_axes_nonempty inst hall
  · rw [ha]
    exact name_not_in_buildAxes inst

/-- C10 (witness): the first generation call of the all-success run of
the compiled-in table. -/
theorem C10_axes_drop_name_witness :
    Event.genCall jbSrc
      "assets/google_fonts/jetbrainsmono/JetBrainsMono-Regular.ttf"
      [("wght", Val.num 400)] true ∈ (pythonMain envAll).events ∧
    ((∃ inst ∈ allInstances FONTS_TO_GENERATE,
        [(("wght" : String), Val.num 400)] = buildAxes inst) ∧
      ([(("wght" : String), Val.num 400)] : InstanceConfig) ≠ [] ∧
      "name" ∉ ([(("wght" : String), Val.num 400)] :
        InstanceConfig).map Prod.fst) := by
  have hmem : Event.genCall jbSrc
      "assets/google_fonts/jetbrainsmono/JetBrainsMono-Regular.ttf"
      [("wght", Val.num 400)] true ∈ (pythonMain envAll).events := by
    decide
  exact ⟨hmem, C10_axes_drop_name envAll jbSrc
    "assets/google_fonts/jetbrainsmono/JetBrainsMono-Regular.ttf"
    [("wght", Val.num 400)] true hmem⟩

end GenStaticFonts
